import Mathlib

/-!
Verification of the predicate-evaluation core of the CNPJvalidate repository
(`filter_toolkit.py` and the row loop of `main.py`).

The embedding below translates `filter_toolkit.filter_row` and its inner
`evaluate_condition` function.  Python condition dictionaries become the
`Cond` inductive (every key that `evaluate_condition` reads via `.get` is a
field, with absence modelled by `Option`/the `.get` default).  Python
exceptions become an explicit error type `PyError` carried in `Except`.
Python's `re.search(pattern, s, re.IGNORECASE)` is an external library
call, so it is abstracted as a boolean-valued parameter
`rs : String → String → Bool` of the evaluator; theorems about regex
conditions quantify over it.

Python string primitives are modelled by structural functions on the
character list (`String.data`) so that every verdict is computable by the
kernel: `str.lower()` is `pyLower` (ASCII case folding, adequate for the
registry data), `str.strip()` is `pyStrip`, `str.split(',')` is
`pySplit ','` (both yield one empty piece on the empty string), and the
substring test `a in b` is `strIn`.
-/

namespace FilterToolkit

/-- Python exception kinds that `filter_row` can raise.
`valueError` is `ValueError` (raised by `list.index` on a missing element),
`indexError` is `IndexError` (raised by `row[idx]` out of range),
`attributeError` is `AttributeError` (raised by `value.lower()` when the
operand is not a string), `typeError` is `TypeError` (raised by `re.search`
on a non-string pattern). -/
inductive PyError : Type where
  | valueError : PyError
  | indexError : PyError
  | attributeError : PyError
  | typeError : PyError
deriving DecidableEq, Repr

/-- In Python's exception hierarchy, `IndexError` (and `KeyError`) derive
from `LookupError`; `ValueError`, `AttributeError` and `TypeError` do not. -/
def PyError.isLookupError : PyError → Bool
  | .indexError => true
  | _ => false

/-- Python values that appear in the `value` entry of a condition
dictionary: strings (text operators), numbers (`gt`/`lt`/`ge`/`le`
constructors) and booleans (`bool_eq`/`bool_ne` constructors).  The
caller-supplied functions of `custom` are not needed by any theorem and
are omitted. -/
inductive PyVal : Type where
  | str : String → PyVal
  | int : Int → PyVal
  | bool : Bool → PyVal
deriving DecidableEq, Repr

/-- A condition dictionary.  `evaluate_condition` reads exactly the keys
`op`, `conditions` (default `[]`), `condition` (default `{}`), `field` and
`value`; each is a field here, with `Option.none` standing for an absent
key. -/
inductive Cond : Type where
  | mk (op : Option String) (conditions : List Cond) (condition : Option Cond)
       (field : Option String) (value : Option PyVal)

/-- `columns.index(field)`: first index whose element equals `field`;
`ValueError` when no element matches (in particular when `field` is
`None`, which equals no string). -/
def pyIndex (columns : List String) (field : Option String) :
    Except PyError Nat :=
  match field with
  | none => .error .valueError
  | some f =>
    match columns.findIdx? (fun c => c == f) with
    | some i => .ok i
    | none => .error .valueError

/-- `row[idx]` for a nonnegative index: `IndexError` when out of range. -/
def pyGetItem (row : List String) (idx : Nat) : Except PyError String :=
  match row.get? idx with
  | some s => .ok s
  | none => .error .indexError

/-- `value.lower()` demands a string: on `None` or a non-string value the
attribute access raises `AttributeError`. -/
def pyStrOfVal : Option PyVal → Except PyError String
  | some (.str s) => .ok s
  | _ => .error .attributeError

/-- `re.search(pattern, s, ...)` demands a string (or compiled) pattern:
on `None` or a non-string value it raises `TypeError`. -/
def pyPattern : Option PyVal → Except PyError String
  | some (.str s) => .ok s
  | _ => .error .typeError

/-- `str.lower()` as a character list (ASCII case folding). -/
def pyLower (s : String) : List Char := s.data.map Char.toLower

/-- `str.split(sep)` for a one-character separator: every occurrence
splits, adjacent separators produce empty pieces, and the result is never
empty (`"".split(',') == ['']`). -/
def pySplit (sep : Char) : List Char → List (List Char)
  | [] => [[]]
  | c :: cs =>
    match pySplit sep cs with
    | [] => [[]]
    | h :: t => if c = sep then [] :: h :: t else (c :: h) :: t

/-- `str.strip()`: remove leading and trailing whitespace. -/
def pyStrip (l : List Char) : List Char :=
  ((l.dropWhile Char.isWhitespace).reverse.dropWhile Char.isWhitespace).reverse

/-- Python's substring test `pat in s` on character lists: true iff `pat`
occurs contiguously in `s` (the empty pattern occurs in every string). -/
def strIn (pat : List Char) : List Char → Bool
  | [] => pat.isEmpty
  | c :: cs => pat.isPrefixOf (c :: cs) || strIn pat cs

/-- The comma-separated candidate values of a multi-value cell:
`[v.strip() for v in cell.split(',')]`. -/
def multiValues (cell : String) : List (List Char) :=
  (pySplit ',' cell.data).map pyStrip

mutual

/-- `evaluate_condition` from `filter_toolkit.filter_row` (lines 350-397).
`rs pattern s` stands for `bool(re.search(pattern, s, re.IGNORECASE))`.
The `elif` chain is rendered as the same chain of string comparisons, and
the final `return False` is the last `else`.  In the `NOT` branch with an
absent child, the source evaluates the default `{}`, which has no `op` and
so evaluates to `True`; the negation is therefore `False`. -/
def evaluate_condition (rs : String → String → Bool)
    (columns row : List String) : Cond → Except PyError Bool
  | .mk op conds child field value =>
    match op with
    | none => .ok true
    | some o =>
      if o = "" then .ok true
      else if o = "AND" then evalAll rs columns row conds
      else if o = "OR" then evalAny rs columns row conds
      else if o = "NOT" then
        match child with
        | some c => do
          let b ← evaluate_condition rs columns row c
          .ok (!b)
        | none => .ok (!true)
      else if o = "contains" then do
        let idx ← pyIndex columns field
        if field = some "CNAE_FISCAL_SECUNDARIA" then do
          let cell ← pyGetItem row idx
          let v ← pyStrOfVal value
          .ok ((multiValues cell).any
            (fun t => strIn (pyLower v) (t.map Char.toLower)))
        else do
          let v ← pyStrOfVal value
          let cell ← pyGetItem row idx
          .ok (strIn (pyLower v) (pyLower cell))
      else if o = "eq" then do
        let idx ← pyIndex columns field
        if field = some "CNAE_FISCAL_SECUNDARIA" then do
          let cell ← pyGetItem row idx
          let v ← pyStrOfVal value
          .ok ((multiValues cell).any
            (fun t => pyLower v == t.map Char.toLower))
        else do
          let cell ← pyGetItem row idx
          let v ← pyStrOfVal value
          .ok (pyLower cell == pyLower v)
      else if o = "ne" then do
        let idx ← pyIndex columns field
        if field = some "CNAE_FISCAL_SECUNDARIA" then do
          let cell ← pyGetItem row idx
          let v ← pyStrOfVal value
          .ok ((multiValues cell).all
            (fun t => pyLower v != t.map Char.toLower))
        else do
          let cell ← pyGetItem row idx
          let v ← pyStrOfVal value
          .ok (pyLower cell != pyLower v)
      else if o = "regex" then do
        let idx ← pyIndex columns field
        if field = some "CNAE_FISCAL_SECUNDARIA" then do
          let cell ← pyGetItem row idx
          let p ← pyPattern value
          .ok ((multiValues cell).any (fun t => rs p (String.mk t)))
        else do
          let cell ← pyGetItem row idx
          let p ← pyPattern value
          .ok (rs p cell)
      else .ok false

/-- `all(evaluate_condition(c) for c in ...)`: short-circuits on the first
false child, propagating the first exception. -/
def evalAll (rs : String → String → Bool) (columns row : List String) :
    List Cond → Except PyError Bool
  | [] => .ok true
  | c :: cs => do
    let b ← evaluate_condition rs columns row c
    if b then evalAll rs columns row cs else .ok false

/-- `any(evaluate_condition(c) for c in ...)`: short-circuits on the first
true child, propagating the first exception. -/
def evalAny (rs : String → String → Bool) (columns row : List String) :
    List Cond → Except PyError Bool
  | [] => .ok false
  | c :: cs => do
    let b ← evaluate_condition rs columns row c
    if b then .ok true else evalAny rs columns row cs

end

/-- `filter_row(row, columns, filter_obj)` (source argument order). -/
def filter_row (rs : String → String → Bool) (row columns : List String)
    (filter_obj : Cond) : Except PyError Bool :=
  evaluate_condition rs columns row filter_obj

/-- `AND(*conditions)` constructor: `{"op": "AND", "conditions": conditions}`. -/
def AND (conditions : List Cond) : Cond :=
  .mk (some "AND") conditions none none none

/-- `OR(*conditions)` constructor: `{"op": "OR", "conditions": conditions}`. -/
def OR (conditions : List Cond) : Cond :=
  .mk (some "OR") conditions none none none

/-- `NOT(condition)` constructor: `{"op": "NOT", "condition": condition}`. -/
def NOT (condition : Cond) : Cond :=
  .mk (some "NOT") [] (some condition) none none

/-- `eq(field, value)` constructor. -/
def eq (field : String) (value : PyVal) : Cond :=
  .mk (some "eq") [] none (some field) (some value)

/-- `ne(field, value)` constructor. -/
def ne (field : String) (value : PyVal) : Cond :=
  .mk (some "ne") [] none (some field) (some value)

/-- `contains(field, value)` constructor. -/
def contains (field : String) (value : PyVal) : Cond :=
  .mk (some "contains") [] none (some field) (some value)

/-- `startswith(field, value)` constructor. -/
def startswith (field : String) (value : PyVal) : Cond :=
  .mk (some "startswith") [] none (some field) (some value)

/-- `endswith(field, value)` constructor. -/
def endswith (field : String) (value : PyVal) : Cond :=
  .mk (some "endswith") [] none (some field) (some value)

/-- `regex(field, value)` constructor. -/
def regex (field : String) (value : PyVal) : Cond :=
  .mk (some "regex") [] none (some field) (some value)

/-- `gt(field, value)` constructor. -/
def gt (field : String) (value : PyVal) : Cond :=
  .mk (some "gt") [] none (some field) (some value)

/-- `lt(field, value)` constructor. -/
def lt (field : String) (value : PyVal) : Cond :=
  .mk (some "lt") [] none (some field) (some value)

/-- `ge(field, value)` constructor. -/
def ge (field : String) (value : PyVal) : Cond :=
  .mk (some "ge") [] none (some field) (some value)

/-- `le(field, value)` constructor. -/
def le (field : String) (value : PyVal) : Cond :=
  .mk (some "le") [] none (some field) (some value)

/-- The pure core of the row loop in `main.py` `process_csv` (lines 63-67):
each row is kept iff `filter_row` returns true; an exception raised while
filtering a row propagates (there is no per-row handler), aborting the
whole run. -/
def process_rows (rs : String → String → Bool) (columns : List String)
    (filter_obj : Cond) : List (List String) →
    Except PyError (List (List String))
  | [] => .ok []
  | r :: rest => do
    let b ← filter_row rs r columns filter_obj
    let out ← process_rows rs columns filter_obj rest
    .ok (if b then r :: out else out)

/-- A concrete stand-in for `re.search` used when instantiating theorems:
a regex engine that never matches. -/
def rsFalse : String → String → Bool := fun _ _ => false

instance : DecidableEq (Except PyError Bool) := fun a b =>
  match a, b with
  | .ok x, .ok y =>
    if h : x = y then .isTrue (by simp [h]) else .isFalse (by simp [h])
  | .error x, .error y =>
    if h : x = y then .isTrue (by simp [h]) else .isFalse (by simp [h])
  | .ok _, .error _ => .isFalse (by simp)
  | .error _, .ok _ => .isFalse (by simp)

theorem ok_bind {α β : Type} (a : α) (f : α → Except PyError β) :
    (Except.ok a : Except PyError α) >>= f = f a := rfl

theorem error_bind {α β : Type} (e : PyError) (f : α → Except PyError β) :
    (Except.error e : Except PyError α) >>= f =
      (.error e : Except PyError β) := rfl

/-- Unfolding the `eq` branch for a single-value field whose cell exists. -/
theorem eval_eq_single (rs : String → String → Bool)
    (columns row : List String) (f v : String) (idx : Nat) (cell : String)
    (hf : f ≠ "CNAE_FISCAL_SECUNDARIA")
    (hidx : columns.findIdx? (fun c => c == f) = some idx)
    (hcell : row[idx]? = some cell) :
    evaluate_condition rs columns row (eq f (.str v)) =
      .ok (pyLower cell == pyLower v) := by
  simp [evaluate_condition, eq, pyIndex, pyGetItem, hidx, hcell, hf,
    pyStrOfVal, ok_bind]

/-- Unfolding the `ne` branch for a single-value field whose cell exists. -/
theorem eval_ne_single (rs : String → String → Bool)
    (columns row : List String) (f v : String) (idx : Nat) (cell : String)
    (hf : f ≠ "CNAE_FISCAL_SECUNDARIA")
    (hidx : columns.findIdx? (fun c => c == f) = some idx)
    (hcell : row[idx]? = some cell) :
    evaluate_condition rs columns row (ne f (.str v)) =
      .ok (pyLower cell != pyLower v) := by
  simp [evaluate_condition, ne, pyIndex, pyGetItem, hidx, hcell, hf,
    pyStrOfVal, ok_bind]

/-- Unfolding the `contains` branch for a single-value field whose cell
exists. -/
theorem eval_contains_single (rs : String → String → Bool)
    (columns row : List String) (f v : String) (idx : Nat) (cell : String)
    (hf : f ≠ "CNAE_FISCAL_SECUNDARIA")
    (hidx : columns.findIdx? (fun c => c == f) = some idx)
    (hcell : row[idx]? = some cell) :
    evaluate_condition rs columns row (contains f (.str v)) =
      .ok (strIn (pyLower v) (pyLower cell)) := by
  simp [evaluate_condition, contains, pyIndex, pyGetItem, hidx, hcell, hf,
    pyStrOfVal, ok_bind]

/-- Unfolding the `regex` branch for a single-value field whose cell
exists. -/
theorem eval_regex_single (rs : String → String → Bool)
    (columns row : List String) (f v : String) (idx : Nat) (cell : String)
    (hf : f ≠ "CNAE_FISCAL_SECUNDARIA")
    (hidx : columns.findIdx? (fun c => c == f) = some idx)
    (hcell : row[idx]? = some cell) :
    evaluate_condition rs columns row (regex f (.str v)) =
      .ok (rs v cell) := by
  simp [evaluate_condition, regex, pyIndex, pyGetItem, hidx, hcell, hf,
    pyPattern, ok_bind]

/-- Unfolding the `eq` branch for the multi-value field. -/
theorem eval_eq_multi (rs : String → String → Bool)
    (columns row : List String) (v : String) (idx : Nat) (cell : String)
    (hidx : columns.findIdx?
      (fun c => c == "CNAE_FISCAL_SECUNDARIA") = some idx)
    (hcell : row[idx]? = some cell) :
    evaluate_condition rs columns row
        (eq "CNAE_FISCAL_SECUNDARIA" (.str v)) =
      .ok ((multiValues cell).any
        (fun t => pyLower v == t.map Char.toLower)) := by
  simp [evaluate_condition, eq, pyIndex, pyGetItem, hidx, hcell,
    pyStrOfVal, ok_bind]

/-- Unfolding the `ne` branch for the multi-value field. -/
theorem eval_ne_multi (rs : String → String → Bool)
    (columns row : List String) (v : String) (idx : Nat) (cell : String)
    (hidx : columns.findIdx?
      (fun c => c == "CNAE_FISCAL_SECUNDARIA") = some idx)
    (hcell : row[idx]? = some cell) :
    evaluate_condition rs columns row
        (ne "CNAE_FISCAL_SECUNDARIA" (.str v)) =
      .ok ((multiValues cell).all
        (fun t => pyLower v != t.map Char.toLower)) := by
  simp [evaluate_condition, ne, pyIndex, pyGetItem, hidx, hcell,
    pyStrOfVal, ok_bind]

/-- Unfolding the `contains` branch for the multi-value field. -/
theorem eval_contains_multi (rs : String → String → Bool)
    (columns row : List String) (v : String) (idx : Nat) (cell : String)
    (hidx : columns.findIdx?
      (fun c => c == "CNAE_FISCAL_SECUNDARIA") = some idx)
    (hcell : row[idx]? = some cell) :
    evaluate_condition rs columns row
        (contains "CNAE_FISCAL_SECUNDARIA" (.str v)) =
      .ok ((multiValues cell).any
        (fun t => strIn (pyLower v) (t.map Char.toLower))) := by
  simp [evaluate_condition, contains, pyIndex, pyGetItem, hidx, hcell,
    pyStrOfVal, ok_bind]

/-- Unfolding the `regex` branch for the multi-value field. -/
theorem eval_regex_multi (rs : String → String → Bool)
    (columns row : List String) (v : String) (idx : Nat) (cell : String)
    (hidx : columns.findIdx?
      (fun c => c == "CNAE_FISCAL_SECUNDARIA") = some idx)
    (hcell : row[idx]? = some cell) :
    evaluate_condition rs columns row
        (regex "CNAE_FISCAL_SECUNDARIA" (.str v)) =
      .ok ((multiValues cell).any (fun t => rs v (String.mk t))) := by
  simp [evaluate_condition, regex, pyIndex, pyGetItem, hidx, hcell,
    pyPattern, ok_bind]

/-- `columns.index(f)` fails when `f` is not among the columns. -/
theorem findIdx_none_of_not_mem (columns : List String) (f : String)
    (h : f ∉ columns) : columns.findIdx? (fun c => c == f) = none := by
  rw [List.findIdx?_eq_none_iff]
  intro x hx
  simp only [beq_eq_false_iff_ne]
  intro hxf
  exact h (hxf ▸ hx)

end FilterToolkit

open FilterToolkit

/-- C1: for the multi-value field `CNAE_FISCAL_SECUNDARIA`, whose cell is
split on commas with whitespace trimmed around each token, an `eq` (and
likewise `contains` and `regex`) condition is true iff SOME candidate token
satisfies the per-value case-insensitive test, while `ne` is true iff EVERY
candidate token differs case-insensitively from the operand; with cell
`"A, B, C"`, `eq "B"` is true, `ne "B"` is false and `ne "D"` is true. -/
theorem C1_multi_value_quantification (rs : String → String → Bool)
    (columns row : List String) (idx : Nat) (cell v : String)
    (hidx : columns.findIdx?
      (fun c => c == "CNAE_FISCAL_SECUNDARIA") = some idx)
    (hcell : row[idx]? = some cell) :
    (evaluate_condition rs columns row
        (eq "CNAE_FISCAL_SECUNDARIA" (.str v)) = .ok true
      ↔ ∃ t ∈ multiValues cell, pyLower v = t.map Char.toLower)
    ∧ (evaluate_condition rs columns row
        (contains "CNAE_FISCAL_SECUNDARIA" (.str v)) = .ok true
      ↔ ∃ t ∈ multiValues cell,
          strIn (pyLower v) (t.map Char.toLower) = true)
    ∧ (evaluate_condition rs columns row
        (regex "CNAE_FISCAL_SECUNDARIA" (.str v)) = .ok true
      ↔ ∃ t ∈ multiValues cell, rs v (String.mk t) = true)
    ∧ (evaluate_condition rs columns row
        (ne "CNAE_FISCAL_SECUNDARIA" (.str v)) = .ok true
      ↔ ∀ t ∈ multiValues cell, pyLower v ≠ t.map Char.toLower)
    ∧ evaluate_condition rs ["CNAE_FISCAL_SECUNDARIA"] ["A, B, C"]
        (eq "CNAE_FISCAL_SECUNDARIA" (.str "B")) = .ok true
    ∧ evaluate_condition rs ["CNAE_FISCAL_SECUNDARIA"] ["A, B, C"]
        (ne "CNAE_FISCAL_SECUNDARIA" (.str "B")) = .ok false
    ∧ evaluate_condition rs ["CNAE_FISCAL_SECUNDARIA"] ["A, B, C"]
        (ne "CNAE_FISCAL_SECUNDARIA" (.str "D")) = .ok true := by
  refine ⟨?_, ?_, ?_, ?_, rfl, rfl, rfl⟩
  · rw [eval_eq_multi rs columns row v idx cell hidx hcell]
    simp [List.any_eq_true]
  · rw [eval_contains_multi rs columns row v idx cell hidx hcell]
    simp [List.any_eq_true]
  · rw [eval_regex_multi rs columns row v idx cell hidx hcell]
    simp [List.any_eq_true]
  · rw [eval_ne_multi rs columns row v idx cell hidx hcell]
    simp [List.all_eq_true]

/-- C1 witness: the `"A, B, C"` instance of the multi-value semantics. -/
theorem C1_witness :
    evaluate_condition rsFalse ["CNAE_FISCAL_SECUNDARIA"] ["A, B, C"]
      (eq "CNAE_FISCAL_SECUNDARIA" (.str "B")) = .ok true :=
  (C1_multi_value_quantification rsFalse ["CNAE_FISCAL_SECUNDARIA"]
    ["A, B, C"] 0 "A, B, C" "B" (by decide) rfl).2.2.2.2.1

/-- C2 counterexample: a node with the unrecognized operator `"equals"`
silently evaluates to the boolean verdict `false`, and a node with no
operator entry evaluates to `true` — no `ConfigurationError` is raised
(none exists in the code). -/
theorem C2_counterexample :
    evaluate_condition rsFalse ["SITUACAO_CADASTRAL"] ["ATIVA"]
      (Cond.mk (some "equals") [] none (some "SITUACAO_CADASTRAL")
        (some (.str "ATIVA"))) = .ok false
    ∧ evaluate_condition rsFalse ["SITUACAO_CADASTRAL"] ["ATIVA"]
      (Cond.mk none [] none (some "SITUACAO_CADASTRAL")
        (some (.str "ATIVA"))) = .ok true := ⟨rfl, rfl⟩

/-- C2 (amended): a node whose operator is none of the recognized strings
(`AND`, `OR`, `NOT`, `contains`, `eq`, `ne`, `regex`) evaluates to the
boolean verdict `false`, and a node with no operator entry evaluates to
`true`; no exception of any kind is surfaced for either. -/
theorem C2_unknown_op_silent (rs : String → String → Bool)
    (columns row : List String) (conds : List Cond) (child : Option Cond)
    (field : Option String) (value : Option PyVal) (o : String)
    (h0 : o ≠ "") (h1 : o ≠ "AND") (h2 : o ≠ "OR") (h3 : o ≠ "NOT")
    (h4 : o ≠ "contains") (h5 : o ≠ "eq") (h6 : o ≠ "ne")
    (h7 : o ≠ "regex") :
    evaluate_condition rs columns row
      (.mk (some o) conds child field value) = .ok false
    ∧ evaluate_condition rs columns row
      (.mk none conds child field value) = .ok true := by
  constructor
  · rw [evaluate_condition.eq_def]
    simp [h0, h1, h2, h3, h4, h5, h6, h7]
  · rfl

/-- C2 witness: the `"equals"` instance of the unknown-operator behavior. -/
theorem C2_witness :
    evaluate_condition rsFalse ["A"] ["x"]
      (Cond.mk (some "equals") [] none (some "A") (some (.str "x"))) = .ok false
    ∧ evaluate_condition rsFalse ["A"] ["x"]
      (Cond.mk none [] none (some "A") (some (.str "x"))) = .ok true :=
  C2_unknown_op_silent rsFalse ["A"] ["x"] [] none (some "A")
    (some (.str "x")) "equals" (by decide) (by decide) (by decide)
    (by decide) (by decide) (by decide) (by decide) (by decide)

/-- C3 counterexample: an `eq` condition on a field absent from the column
mapping fails with `ValueError` (from `list.index`), which is NOT a
`LookupError` in Python's exception hierarchy; moreover a `gt` condition
on an absent field returns the boolean verdict `false` without any
exception. -/
theorem C3_counterexample :
    evaluate_condition rsFalse ["CNPJ_BASICO"] ["123"]
      (eq "NOPE" (.str "x")) = .error .valueError
    ∧ PyError.isLookupError .valueError = false
    ∧ evaluate_condition rsFalse ["CNPJ_BASICO"] ["123"]
      (gt "NOPE" (.str "x")) = .ok false := ⟨rfl, rfl, rfl⟩

/-- C3 (amended): for the implemented operators `eq`/`ne`/`contains`/
`regex`, a field name absent from the column mapping fails with
`ValueError` (raised by `columns.index`; not a `LookupError`), regardless
of the row; for unimplemented operators such as `gt` no lookup happens and
the verdict is `false`. -/
theorem C3_unknown_field_valueError (rs : String → String → Bool)
    (columns row : List String) (f v : String) (h : f ∉ columns) :
    evaluate_condition rs columns row (eq f (.str v)) = .error .valueError
    ∧ evaluate_condition rs columns row (ne f (.str v)) = .error .valueError
    ∧ evaluate_condition rs columns row (contains f (.str v)) =
        .error .valueError
    ∧ evaluate_condition rs columns row (regex f (.str v)) =
        .error .valueError
    ∧ evaluate_condition rs columns row (gt f (.str v)) = .ok false
    ∧ PyError.isLookupError .valueError = false := by
  have hidx := findIdx_none_of_not_mem columns f h
  refine ⟨?_, ?_, ?_, ?_, rfl, rfl⟩ <;>
    simp [evaluate_condition, eq, ne, contains, regex, pyIndex, hidx,
      error_bind]

/-- C3 witness: field `"B"` absent from the single-column mapping `["A"]`. -/
theorem C3_witness :
    evaluate_condition rsFalse ["A"] ["x"] (eq "B" (.str "y")) =
      .error .valueError :=
  (C3_unknown_field_valueError rsFalse ["A"] ["x"] "B" "y" (by decide)).1

/-- C4: the evaluator's operator dispatch has no branch for `gt`, `lt`,
`ge` or `le`: conditions built by these constructors fall through to the
final `return False` for every row and mapping, so no number is ever
parsed and no exception raised — contradicting the constructors' own
docstrings; at the failing input (cell `"5"`, operand `3`) the verdict is
`false` although 3 < 5. -/
theorem C4_numeric_ops_unimplemented (rs : String → String → Bool)
    (columns row : List String) (f : String) (v : PyVal) :
    evaluate_condition rs columns row (gt f v) = .ok false
    ∧ evaluate_condition rs columns row (lt f v) = .ok false
    ∧ evaluate_condition rs columns row (ge f v) = .ok false
    ∧ evaluate_condition rs columns row (le f v) = .ok false
    ∧ (evaluate_condition rs ["CNAE_FISCAL_PRINCIPAL"] ["5"]
        (gt "CNAE_FISCAL_PRINCIPAL" (.int 3)) = .ok false
      ∧ (3 : Int) < 5) :=
  ⟨rfl, rfl, rfl, rfl, rfl, by decide⟩

/-- C5: the evaluator's operator dispatch has no branch for `startswith`
or `endswith`: conditions built by these constructors fall through to the
final `return False` for every row and mapping — contradicting the
constructors' own docstrings; at the failing input the cell `"ABCD"` does
start with `"ab"` case-insensitively, yet the verdict is `false`. -/
theorem C5_affix_ops_unimplemented (rs : String → String → Bool)
    (columns row : List String) (f : String) (v : PyVal) :
    evaluate_condition rs columns row (startswith f v) = .ok false
    ∧ evaluate_condition rs columns row (endswith f v) = .ok false
    ∧ (evaluate_condition rs ["NOME_FANTASIA"] ["ABCD"]
        (startswith "NOME_FANTASIA" (.str "ab")) = .ok false
      ∧ List.isPrefixOf (pyLower "ab") (pyLower "ABCD") = true
      ∧ evaluate_condition rs ["NOME_FANTASIA"] ["ABCD"]
        (endswith "NOME_FANTASIA" (.str "cd")) = .ok false
      ∧ List.isSuffixOf (pyLower "cd") (pyLower "ABCD") = true) :=
  ⟨rfl, rfl, rfl, by decide, rfl, by decide⟩

/-- C6 counterexample: an `eq` condition on column `B` (index 1) of the
one-cell row `["x"]` raises `IndexError` rather than padding the missing
trailing cell with the empty string (padding would give the verdict
`true`, as the second conjunct shows on the padded row), and the error
propagates through the row loop, aborting the run. -/
theorem C6_counterexample :
    evaluate_condition rsFalse ["A", "B"] ["x"] (eq "B" (.str "")) =
      .error .indexError
    ∧ evaluate_condition rsFalse ["A", "B"] ["x", ""] (eq "B" (.str "")) =
      .ok true
    ∧ process_rows rsFalse ["A", "B"] (eq "B" (.str "")) [["x"]] =
      .error .indexError := ⟨rfl, rfl, rfl⟩

/-- C6 (amended): a field condition (`eq`/`ne`/`contains`/`regex`) whose
column index lies beyond the row's length raises `IndexError` — missing
trailing cells are not padded — and the exception propagates out of the
row loop of `process_csv`, aborting the run. -/
theorem C6_short_row_indexError (rs : String → String → Bool)
    (columns row : List String) (f v : String) (idx : Nat)
    (hidx : columns.findIdx? (fun c => c == f) = some idx)
    (hlen : row.length ≤ idx) :
    evaluate_condition rs columns row (eq f (.str v)) = .error .indexError
    ∧ evaluate_condition rs columns row (ne f (.str v)) = .error .indexError
    ∧ evaluate_condition rs columns row (contains f (.str v)) =
        .error .indexError
    ∧ evaluate_condition rs columns row (regex f (.str v)) =
        .error .indexError
    ∧ process_rows rs columns (eq f (.str v)) [row] =
        .error .indexError := by
  have hcell : row[idx]? = none := by simp [List.getElem?_eq_none hlen]
  have heq : evaluate_condition rs columns row (eq f (.str v)) =
      .error .indexError := by
    by_cases hf : f = "CNAE_FISCAL_SECUNDARIA"
    · subst hf
      simp [evaluate_condition, eq, pyIndex, pyGetItem, hidx, hcell,
        pyStrOfVal, ok_bind, error_bind]
    · simp [evaluate_condition, eq, pyIndex, pyGetItem, hidx, hcell, hf,
        pyStrOfVal, ok_bind, error_bind]
  have hne : evaluate_condition rs columns row (ne f (.str v)) =
      .error .indexError := by
    by_cases hf : f = "CNAE_FISCAL_SECUNDARIA"
    · subst hf
      simp [evaluate_condition, ne, pyIndex, pyGetItem, hidx, hcell,
        pyStrOfVal, ok_bind, error_bind]
    · simp [evaluate_condition, ne, pyIndex, pyGetItem, hidx, hcell, hf,
        pyStrOfVal, ok_bind, error_bind]
  have hcontains : evaluate_condition rs columns row (contains f (.str v)) =
      .error .indexError := by
    by_cases hf : f = "CNAE_FISCAL_SECUNDARIA"
    · subst hf
      simp [evaluate_condition, contains, pyIndex, pyGetItem, hidx, hcell,
        pyStrOfVal, ok_bind, error_bind]
    · simp [evaluate_condition, contains, pyIndex, pyGetItem, hidx, hcell,
        hf, pyStrOfVal, ok_bind, error_bind]
  have hregex : evaluate_condition rs columns row (regex f (.str v)) =
      .error .indexError := by
    by_cases hf : f = "CNAE_FISCAL_SECUNDARIA"
    · subst hf
      simp [evaluate_condition, regex, pyIndex, pyGetItem, hidx, hcell,
        pyPattern, ok_bind, error_bind]
    · simp [evaluate_condition, regex, pyIndex, pyGetItem, hidx, hcell,
        hf, pyPattern, ok_bind, error_bind]
  refine ⟨heq, hne, hcontains, hregex, ?_⟩
  simp [process_rows, filter_row, heq, error_bind]

/-- C6 witness: column `"B"` has index 1, beyond the one-cell row `["x"]`. -/
theorem C6_witness :
    evaluate_condition rsFalse ["A", "B"] ["x"] (eq "B" (.str "y")) =
      .error .indexError :=
  (C6_short_row_indexError rsFalse ["A", "B"] ["x"] "B" "y" 1
    (by decide) (by decide)).1

/-- C7: for a single-value field, the `eq`/`ne`/`contains` verdicts depend
only on the lowercased cell and operand, so changing letter case on either
side never changes the verdict; the same holds for `regex` whenever the
regex engine is case-insensitive in pattern and input (which is what the
`re.IGNORECASE` flag provides); in particular `eq` with operand `"ATIVA"`
is true on a row whose cell is `"ativa"`. -/
theorem C7_single_value_case_insensitive (rs : String → String → Bool)
    (columns row row' : List String) (f v v' c c' : String) (idx : Nat)
    (hf : f ≠ "CNAE_FISCAL_SECUNDARIA")
    (hidx : columns.findIdx? (fun x => x == f) = some idx)
    (hc : row[idx]? = some c) (hc' : row'[idx]? = some c')
    (hcc : pyLower c = pyLower c') (hvv : pyLower v = pyLower v') :
    (evaluate_condition rs columns row (eq f (.str v)) =
      evaluate_condition rs columns row' (eq f (.str v')))
    ∧ (evaluate_condition rs columns row (ne f (.str v)) =
      evaluate_condition rs columns row' (ne f (.str v')))
    ∧ (evaluate_condition rs columns row (contains f (.str v)) =
      evaluate_condition rs columns row' (contains f (.str v')))
    ∧ ((∀ p p' s s', pyLower p = pyLower p' → pyLower s = pyLower s' →
          rs p s = rs p' s') →
        evaluate_condition rs columns row (regex f (.str v)) =
          evaluate_condition rs columns row' (regex f (.str v')))
    ∧ evaluate_condition rs ["SITUACAO_CADASTRAL"] ["ativa"]
        (eq "SITUACAO_CADASTRAL" (.str "ATIVA")) = .ok true := by
  refine ⟨?_, ?_, ?_, ?_, rfl⟩
  · rw [eval_eq_single rs columns row f v idx c hf hidx hc,
      eval_eq_single rs columns row' f v' idx c' hf hidx hc', hcc, hvv]
  · rw [eval_ne_single rs columns row f v idx c hf hidx hc,
      eval_ne_single rs columns row' f v' idx c' hf hidx hc', hcc, hvv]
  · rw [eval_contains_single rs columns row f v idx c hf hidx hc,
      eval_contains_single rs columns row' f v' idx c' hf hidx hc',
      hcc, hvv]
  · intro hrs
    rw [eval_regex_single rs columns row f v idx c hf hidx hc,
      eval_regex_single rs columns row' f v' idx c' hf hidx hc',
      hrs v v' c c' hvv hcc]

/-- C7 witness: the `"ativa"`/`"ATIVA"` instance. -/
theorem C7_witness :
    evaluate_condition rsFalse ["SITUACAO_CADASTRAL"] ["ativa"]
      (eq "SITUACAO_CADASTRAL" (.str "ATIVA")) = .ok true :=
  (C7_single_value_case_insensitive rsFalse ["SITUACAO_CADASTRAL"]
    ["ativa"] ["ATIVA"] "SITUACAO_CADASTRAL" "ATIVA" "ativa" "ativa"
    "ATIVA" 0 (by decide) (by decide) rfl rfl (by decide)
    (by decide)).2.2.2.2

/-- C8: evaluating `NOT(P)` yields the boolean negation of evaluating `P`
on the same row and column mapping. -/
theorem C8_not_negation (rs : String → String → Bool)
    (columns row : List String) (P : Cond) (b : Bool)
    (h : evaluate_condition rs columns row P = .ok b) :
    evaluate_condition rs columns row (NOT P) = .ok (!b) := by
  simp [evaluate_condition, NOT, h, ok_bind]

/-- C8 witness: `NOT(AND())` evaluates to the negation of `AND()`. -/
theorem C8_witness :
    evaluate_condition rsFalse [] [] (NOT (AND [])) = .ok (!true) :=
  C8_not_negation rsFalse [] [] (AND []) true rfl

/-- C9: `AND` with an empty sequence of children evaluates to `true`
(vacuous truth) and `OR` with an empty sequence evaluates to `false`
(vacuous falsity), for every row and column mapping. -/
theorem C9_vacuous_and_or (rs : String → String → Bool)
    (columns row : List String) :
    evaluate_condition rs columns row (AND []) = .ok true
    ∧ evaluate_condition rs columns row (OR []) = .ok false := ⟨rfl, rfl⟩

/-- C10: a condition with no `op` entry (or whose `op` is the falsy empty
string) evaluates to `true`, and a `NOT` node with a missing child
evaluates to `false` (the child defaults to `{}`, which evaluates to
`true`). -/
theorem C10_falsy_op (rs : String → String → Bool)
    (columns row : List String) (conds : List Cond) (child : Option Cond)
    (field : Option String) (value : Option PyVal) :
    evaluate_condition rs columns row (.mk none conds child field value) =
      .ok true
    ∧ evaluate_condition rs columns row
        (.mk (some "") conds child field value) = .ok true
    ∧ evaluate_condition rs columns row
        (.mk (some "NOT") conds none field value) = .ok false := by
  refine ⟨rfl, ?_, ?_⟩
  · rw [evaluate_condition.eq_def]
    simp
  · rw [evaluate_condition.eq_def]
    simp
